import Mathlib

/-!
Verification development for the yum distributor publication pipeline
(`pulp_rpm/plugins/distributors/yum_distributor/distributor.py`).

The Python code is shallowly embedded: dictionaries become association
lists, the filesystem becomes an explicit record of existing paths and
symlinks, external collaborators (`util.create_symlink`,
`util.generate_listing_files`, certificate validation, the conflict
query) become boolean oracles packaged in environment records, and
Python exceptions become an explicit `Except` error channel.  Python 2
iteration semantics that matter here (a `dict` iterator raises
`RuntimeError` when the dictionary changes size, `del` of an absent key
raises `KeyError`) are modelled explicitly.
-/

namespace YumDist

/-- Python values as they occur in the distributor configuration.  The
only list-valued key the validator inspects is `skip`, whose elements
are content-type tag strings. -/
inductive PyVal where
  | str (s : String)
  | bool (b : Bool)
  | list (l : List String)
deriving DecidableEq

/-- A plugin call configuration: a dictionary with unique keys.  `get`
returns `none` for an absent key, mirroring `config.get(key)`. -/
structure PyConfig where
  entries : List (String × PyVal)
deriving DecidableEq

def PyConfig.get (c : PyConfig) (k : String) : Option PyVal :=
  c.entries.lookup k

/-- Python truthiness for the values above. -/
def truthy : PyVal → Bool
  | .str s => !(s == (""))
  | .bool b => b
  | .list l => !(l.isEmpty)

/-- String rendering used where the source interpolates a value. -/
def valStr : PyVal → String
  | .str s => s
  | .bool b => if b then ("True") else ("False")
  | .list _ => ("[]")

structure Repo where
  id : String
  working_dir : String
deriving DecidableEq

/-- Whether a string begins with a slash (computed on the character
list so that proofs can evaluate it definitionally). -/
def slashFirst (s : String) : Bool :=
  match s.data with
  | [] => false
  | c :: _ => c == ('/')

/-- Whether a string ends with a slash. -/
def slashLast (s : String) : Bool :=
  match s.data.reverse with
  | [] => false
  | c :: _ => c == ('/')

/-- Model of `os.path.join` for the cases exercised here. -/
def pathJoin (a b : String) : String :=
  if slashFirst b then b
  else if slashLast a || a == ("") then a ++ b
  else a ++ ("/") ++ b

/-- Model of stripping one leading slash, as in `relpath[1:]`. -/
def stripLeadingSlash (s : String) : String :=
  if slashFirst s then String.mk (s.data.drop 1) else s

/-- Model of `str.rstrip(chr(47))`: drop every trailing slash. -/
def rstripSlash (s : String) : String :=
  String.mk ((s.data.reverse.dropWhile (fun c => c == ('/'))).reverse)

/-- Python exceptions that the embedded code can raise. -/
inductive PyErr where
  | keyError
  | runtimeError
  | attributeError
  | osError
deriving DecidableEq

/-- An error tuple `(source_path, target_path, message)`. -/
abbrev ErrTuple := String × String × String

/-- The filesystem as observed through `os.path`: a set of existing
paths and a map from symlink path to its target. -/
structure Fs where
  present : List String
  links : List (String × String)
deriving DecidableEq

def Fs.pathExists (fs : Fs) (p : String) : Bool :=
  fs.present.contains p

def Fs.islink (fs : Fs) (p : String) : Bool :=
  (fs.links.lookup p).isSome

def Fs.lexists (fs : Fs) (p : String) : Bool :=
  fs.pathExists p || fs.islink p

def Fs.addLink (fs : Fs) (src dst : String) : Fs :=
  { present := if fs.present.contains dst then fs.present else dst :: fs.present,
    links := (dst, src) :: fs.links.filter (fun e => !(e.1 == dst)) }

def Fs.removePath (fs : Fs) (p : String) : Fs :=
  { present := fs.present.filter (fun q => !(q == p)),
    links := fs.links.filter (fun e => !(e.1 == p)) }

def Fs.addDir (fs : Fs) (p : String) : Fs :=
  { fs with present := p :: fs.present }

/-- Oracles for the external collaborators invoked during publishing:
whether `util.create_symlink(src, dst)` returns `True`, whether it
raises, and whether `util.generate_listing_files(root, dir)` raises. -/
structure Env where
  link_ok : String → String → Bool
  link_raises : String → String → Bool
  listing_raises : String → String → Bool

/-- Filesystem side effects performed by the publisher. -/
inductive Eff where
  | removePublishDir (root p : String)
  | unlinkPath (p : String)
  | makedirs (p : String)
  | createLink (src dst : String)
  | genListing (root d : String)
deriving DecidableEq

/-- Progress phase states. -/
inductive PState where
  | not_started
  | in_progress
  | finished
  | failed
  | skipped
deriving DecidableEq

/-- One phase progress record, as built by `init_progress`. -/
structure Progress where
  state : PState
  num_success : Int
  num_error : Int
  items_left : Int
  items_total : Int
  error_details : List ErrTuple
deriving DecidableEq

def init_progress : Progress :=
  { state := .in_progress, num_success := 0, num_error := 0,
    items_left := 0, items_total := 0, error_details := [] }

def progressNotStarted : Progress :=
  { state := .not_started, num_success := 0, num_error := 0,
    items_left := 0, items_total := 0, error_details := [] }

/-- The persisted published-distribution-files manifest: distribution
unit id mapped to the ordered list of absolute symlink paths. -/
abbrev Manifest := List (String × List String)

/-- A distribution unit: id, storage path, optional package
subdirectory from its metadata, and the optional `files` metadata entry
(each file contributes its `relativepath`). -/
structure DistroUnit where
  id : String
  storage_path : String
  packagedir : Option String
  files : Option (List String)
deriving DecidableEq

/-- State threaded through the orphan pass: the manifest dictionary,
the filesystem, and the record of removals performed. -/
structure OrState where
  manifest : Manifest
  fs : Fs
  effs : List Eff
deriving DecidableEq

/-- Model of the Python 2 `del scratchpad[KEY][distroid]`: deleting an
absent key raises `KeyError`. -/
def manifest_del (m : Manifest) (k : String) : Option Manifest :=
  if (m.lookup k).isSome then some (m.filter (fun e => !(e.1 == k))) else none

/-- The inner loop of `_handle_orphaned_distributions`: each
previously published path of an orphaned id is removed when it is
currently a symlink. -/
def orphan_paths_loop (root : String) (paths : List String)
    (st : OrState) : OrState :=
  match paths with
  | [] => st
  | p :: rest =>
    let st1 := if st.fs.islink p then
        { st with
          fs := st.fs.removePath p
          effs := st.effs ++ [Eff.removePublishDir root p] }
      else st
    orphan_paths_loop root rest st1

/-- The outer loop of `_handle_orphaned_distributions`.  For each
orphaned id it runs the path loop and then executes the `del` of that
id's manifest entry once (line 702 sits at the same indentation as the
`for orphaned_path` header).  The loop iterates a live Python 2 dict
iterator over the manifest: before yielding each key, and when
detecting exhaustion, the iterator raises `RuntimeError` if the
dictionary changed size since iteration began — which the `del`
always causes. -/
def orphan_keys_loop (root : String) (ids : List String) (orig_size : Nat)
    (keys : List (String × List String)) (st : OrState) : Except PyErr OrState :=
  match keys with
  | [] =>
    if st.manifest.length == orig_size then .ok st else .error .runtimeError
  | (k, _) :: rest =>
    if !(st.manifest.length == orig_size) then .error .runtimeError
    else if ids.contains k then orphan_keys_loop root ids orig_size rest st
    else
      match st.manifest.lookup k with
      | none => .error .keyError
      | some paths =>
        let st2 := orphan_paths_loop root paths st
        match manifest_del st2.manifest k with
        | none => .error .keyError
        | some m2 =>
          orphan_keys_loop root ids orig_size rest { st2 with manifest := m2 }

/-- Model of `_handle_orphaned_distributions(units, repo_working_dir,
scratchpad)`.  `scratch = none` models a scratchpad without the
published-distribution-files key (the `.get` default `[]` iterates as
empty). -/
def handle_orphaned_distributions (units : List DistroUnit) (root : String)
    (scratch : Option Manifest) (fs : Fs) :
    Except PyErr (Option Manifest × Fs × List Eff) :=
  let ids := units.map (fun u => u.id)
  match scratch with
  | none => .ok (none, fs, [])
  | some m =>
    match orphan_keys_loop root ids m.length m ⟨m, fs, []⟩ with
    | .error e => .error e
    | .ok st => .ok (some st.manifest, st.fs, st.effs)

/-- State threaded through the per-unit pass of
`symlink_distribution_unit_files`. -/
structure DState where
  fs : Fs
  progress : Progress
  errors : List ErrTuple
  scratch : Option Manifest
  package_dir : Option String
  effs : List Eff
deriving DecidableEq

/-- The fixed ordered tree-info candidate list
(`constants.TREE_INFO_LIST`, defined outside this repository slice; the
exact names do not affect any claim). -/
def TREE_INFO_LIST : List String := [("treeinfo"), (".treeinfo")]

/-- The tree-info search loop: the loop variable keeps the first
candidate that exists, or the last candidate when none does (the
source never resets it to `None`). -/
def treeinfo_scan (fs : Fs) (src_dir : String) : List String → Option String
  | [] => none
  | [t] => some t
  | t :: rest =>
    if fs.pathExists (pathJoin src_dir t) then some t
    else treeinfo_scan fs src_dir rest

/-- The tree-info sidecar step: symlink the (possibly non-existent)
candidate into the target root.  An exception from
`util.create_symlink` here is not caught by any local handler. -/
def treeinfo_step (env : Env) (storage sym_dir : String) (st : DState) :
    Except PyErr DState :=
  match treeinfo_scan st.fs storage TREE_INFO_LIST with
  | none => .ok st
  | some t =>
    let src := pathJoin storage t
    let dst := pathJoin sym_dir t
    let st := { st with effs := st.effs ++ [Eff.createLink src dst] }
    if env.link_raises src dst then .error .osError
    else if env.link_ok src dst then .ok { st with fs := st.fs.addLink src dst }
    else .ok st

/-- Processing of one `{relativepath}` descriptor inside the per-unit
file loop (distributor.py lines 640 to 673): skip when the destination
already exists, record a missing-source or link-creation error
otherwise, and append to the produced-paths list on skip or success. -/
def process_distro_file (env : Env) (src_dir sym_dir : String) (f : String)
    (st : DState) (published : List String) : DState × List String :=
  let source_path := pathJoin src_dir f
  let symlink_path := pathJoin sym_dir f
  if st.fs.pathExists symlink_path then
    ({ st with progress :=
        { st.progress with items_left := st.progress.items_left - 1 } },
     published ++ [symlink_path])
  else if !(st.fs.pathExists source_path) then
    ({ st with
        errors := st.errors ++
          [(source_path, symlink_path, ("Source path is missing"))],
        progress := { st.progress with
          num_error := st.progress.num_error + 1,
          items_left := st.progress.items_left - 1 } },
     published)
  else if env.link_raises source_path symlink_path then
    ({ st with
        effs := st.effs ++ [Eff.createLink source_path symlink_path],
        errors := st.errors ++
          [(source_path, symlink_path, ("OSError"))],
        progress := { st.progress with
          num_error := st.progress.num_error + 1,
          items_left := st.progress.items_left - 1 } },
     published)
  else if !(env.link_ok source_path symlink_path) then
    ({ st with
        effs := st.effs ++ [Eff.createLink source_path symlink_path],
        errors := st.errors ++
          [(source_path, symlink_path, ("Unable to create symlink"))],
        progress := { st.progress with
          num_error := st.progress.num_error + 1,
          items_left := st.progress.items_left - 1 } },
     published)
  else
    ({ st with
        fs := st.fs.addLink source_path symlink_path,
        effs := st.effs ++ [Eff.createLink source_path symlink_path],
        progress := { st.progress with
          num_success := st.progress.num_success + 1,
          items_left := st.progress.items_left - 1 } },
     published ++ [symlink_path])

/-- The file loop of one distribution unit, accumulating the
produced-paths list. -/
def distro_files_loop (env : Env) (src_dir sym_dir : String)
    (files : List String) (acc : DState × List String) : DState × List String :=
  match files with
  | [] => acc
  | f :: rest =>
    distro_files_loop env src_dir sym_dir rest
      (process_distro_file env src_dir sym_dir f acc.1 acc.2)

/-- Processing of one distribution unit: the package-subdirectory step,
the `files` metadata access (which raises `KeyError` when the key is
absent, the preceding log line notwithstanding), the per-unit reset of
`items_total` and `items_left`, the tree-info step, the file loop, and
the manifest write `scratchpad.update(KEY, (u.id, published))` which
replaces the whole mapping stored under the key with a fresh
single-entry dictionary. -/
def process_distro_unit (env : Env) (sym_dir : String) (u : DistroUnit)
    (st : DState) : Except PyErr DState :=
  let st :=
    match u.packagedir with
    | none => st
    | some pd =>
      let package_path := pathJoin sym_dir pd
      let st := { st with package_dir := some pd }
      let st :=
        if st.fs.islink package_path then
          { st with
            fs := st.fs.removePath package_path
            effs := st.effs ++ [Eff.unlinkPath package_path] }
        else st
      if !(st.fs.pathExists package_path) then
        { st with
          fs := st.fs.addDir package_path
          effs := st.effs ++ [Eff.makedirs package_path] }
      else st
  match u.files with
  | none => .error .keyError
  | some files =>
    let st := { st with progress :=
      { st.progress with
        items_total := (files.length : Int)
        items_left := (files.length : Int) } }
    match treeinfo_step env u.storage_path sym_dir st with
    | .error e => .error e
    | .ok st =>
      let r := distro_files_loop env u.storage_path sym_dir files (st, [])
      .ok { r.1 with scratch := some [(u.id, r.2)] }

/-- The loop over all distribution units. -/
def distro_units_loop (env : Env) (sym_dir : String) :
    List DistroUnit → DState → Except PyErr DState
  | [], st => .ok st
  | u :: rest, st =>
    match process_distro_unit env sym_dir u st with
    | .error e => .error e
    | .ok st2 => distro_units_loop env sym_dir rest st2

/-- Result of `symlink_distribution_unit_files`: the returned status
and error list, the final progress record, the filesystem, the
scratchpad as persisted by the single trailing `set_scratchpad` call,
the final `self.package_dir`, and the effect trace. -/
structure DistroResult where
  status : Bool
  errors : List ErrTuple
  progress : Progress
  fs : Fs
  scratch : Option Manifest
  package_dir : Option String
  effs : List Eff
deriving DecidableEq

/-- Model of `symlink_distribution_unit_files(units, symlink_dir, ...)`:
orphan pass, per-unit pass, the trailing `Packages` compatibility
symlink, and the single `set_scratchpad` persist. -/
def symlink_distribution_unit_files (env : Env) (units : List DistroUnit)
    (sym_dir : String) (scratch : Option Manifest) (fs : Fs)
    (package_dir0 : Option String) : Except PyErr DistroResult :=
  match handle_orphaned_distributions units sym_dir scratch fs with
  | .error e => .error e
  | .ok (scr1, fs1, effs1) =>
    let st0 : DState :=
      { fs := fs1, progress := init_progress, errors := [], scratch := scr1,
        package_dir := package_dir0, effs := effs1 }
    match distro_units_loop env sym_dir units st0 with
    | .error e => .error e
    | .ok st =>
      let packages_symlink_path := pathJoin sym_dir ("Packages")
      let stepPackages : Except PyErr DState :=
        if st.fs.pathExists packages_symlink_path then .ok st
        else
          let st := { st with effs :=
            st.effs ++ [Eff.createLink sym_dir packages_symlink_path] }
          if env.link_raises sym_dir packages_symlink_path then .error .osError
          else if env.link_ok sym_dir packages_symlink_path then
            .ok { st with fs := st.fs.addLink sym_dir packages_symlink_path }
          else
            .ok { st with errors := st.errors ++
              [(sym_dir, packages_symlink_path,
                ("Unable to create Packages symlink"))] }
      match stepPackages with
      | .error e => .error e
      | .ok st =>
        if st.errors.isEmpty then
          .ok { status := true, errors := [],
                progress := { st.progress with state := .finished },
                fs := st.fs, scratch := st.scratch,
                package_dir := st.package_dir, effs := st.effs }
        else
          .ok { status := false, errors := st.errors,
                progress := { st.progress with
                  state := .failed
                  error_details := st.errors },
                fs := st.fs, scratch := st.scratch,
                package_dir := st.package_dir, effs := st.effs }

instance {ε α : Type} [DecidableEq ε] [DecidableEq α] :
    DecidableEq (Except ε α) := fun a b =>
  match a, b with
  | .ok x, .ok y =>
    if h : x = y then .isTrue (by rw [h]) else .isFalse (by simp [h])
  | .error x, .error y =>
    if h : x = y then .isTrue (by rw [h]) else .isFalse (by simp [h])
  | .ok _, .error _ => .isFalse (by simp)
  | .error _, .ok _ => .isFalse (by simp)

/-! Concrete inputs used by the evaluation theorems below. -/

/-- An environment in which every symlink creation succeeds and nothing
raises. -/
def envAllOk : Env :=
  { link_ok := fun _ _ => true,
    link_raises := fun _ _ => false,
    listing_raises := fun _ _ => false }

/-- Current distribution unit `U2`, publishing one file `c`. -/
def uD2 : DistroUnit :=
  { id := ("U2"), storage_path := ("/s2"), packagedir := none,
    files := some [("c")] }

/-- Filesystem after a previous publish of `U1` (files `a`, `b`) and
`U2` (file `c`): all three published paths are symlinks. -/
def fsC1 : Fs :=
  { present := [("/w/a"), ("/w/b"), ("/w/c")],
    links := [(("/w/a"), ("/s1/a")), (("/w/b"), ("/s1/b")),
              (("/w/c"), ("/s2/c"))] }

def dU1 : DistroUnit :=
  { id := ("u1"), storage_path := ("/s1"), packagedir := none,
    files := some [("f1")] }

def dU2 : DistroUnit :=
  { id := ("u2"), storage_path := ("/s2"), packagedir := none,
    files := some [("f2")] }

def fsC2 : Fs := { present := [("/s1/f1"), ("/s2/f2")], links := [] }

/-- A distribution unit whose metadata has no `files` key. -/
def dU_nofiles : DistroUnit :=
  { id := ("d0"), storage_path := ("/s0"), packagedir := none, files := none }

def dC4 : DistroUnit :=
  { id := ("d1"), storage_path := ("/s"), packagedir := none,
    files := some [("f1")] }

def fsC4 : Fs := { present := [("/s/f1")], links := [] }

def distroResultDflt : DistroResult :=
  { status := true, errors := [], progress := init_progress,
    fs := { present := [], links := [] }, scratch := none,
    package_dir := none, effs := [] }

/-- First publish of the unchanged unit set for the idempotence claim. -/
def runC4_first : Except PyErr DistroResult :=
  symlink_distribution_unit_files envAllOk [dC4] ("/w") none fsC4 none

def resC4_first : DistroResult := runC4_first.toOption.getD distroResultDflt

/-- Second publish of the same unit set, over the filesystem and
scratchpad left by the first. -/
def runC4_second : Except PyErr DistroResult :=
  symlink_distribution_unit_files envAllOk [dC4] ("/w") resC4_first.scratch
    resC4_first.fs none

/-- C1: the claim says the orphan pass removes every orphaned symlink,
deletes the orphaned id from the manifest, leaves current units
untouched, and the publish continues.  The code executes the manifest
`del` once per orphaned id while a live iterator is walking that very
dictionary: the deletion changes the dictionary's size, so the
iterator raises `RuntimeError` at its next step — in every iteration
order, since the size check precedes the exhaustion check.  With the
claim's own scenario (U1 published with files a and b, then removed
while U2 stays) the symlinks are removed and U1's entry deleted, but
the pass then raises and aborts the whole publish; the same happens
with a single orphaned path, and even when the orphan is the
manifest's only entry. -/
theorem C1_code_bug_eval :
    handle_orphaned_distributions [uD2] ("/w")
        (some [(("U1"), [("/w/a"), ("/w/b")]), (("U2"), [("/w/c")])]) fsC1
      = .error .runtimeError
  ∧ handle_orphaned_distributions [uD2] ("/w")
        (some [(("U1"), [("/w/a")]), (("U2"), [("/w/c")])]) fsC1
      = .error .runtimeError
  ∧ handle_orphaned_distributions [uD2] ("/w")
        (some [(("U1"), [("/w/a"), ("/w/b")])]) fsC1
      = .error .runtimeError :=
  ⟨by decide, by decide, by decide⟩

/-- C2: the claim says that after the per-unit pass the persisted
manifest has an entry for every current unit, each write replacing only
that unit's entry, persisted per unit.  Evaluating the code on two
units shows the final persisted manifest contains only the last unit's
entry: `scratchpad.update` rebinds the whole key to a fresh
single-entry dictionary, and the only `set_scratchpad` call happens
once after the loop. -/
theorem C2_code_bug_eval :
    (symlink_distribution_unit_files envAllOk [dU1, dU2] ("/w") none fsC2
        none).map (fun r => (r.scratch, r.status))
      = .ok (some [(("u2"), [("/w/f2")])], true) := by
  decide

/-- C3: the claim says a unit without a `files` metadata key is logged
and processed as zero files, with processing continuing.  The code
logs and then unconditionally evaluates `u.metadata` at the `files`
key, raising `KeyError` and aborting the whole publish before the
remaining units are processed. -/
theorem C3_code_bug_eval :
    symlink_distribution_unit_files envAllOk [dU_nofiles, dU2] ("/w") none
        fsC2 none
      = .error .keyError := by
  decide

/-- C4 counterexample: publishing the unchanged single-unit set a
second time (over the filesystem and manifest left by the first run)
yields `num_success = 0` while `items_total = 1`, refuting the claim
that the second run ends with `num_success` equal to `items_total`
because already-existing files are treated as successes.  The skip
branch counts them as neither success nor error. -/
theorem C4_counterexample :
    (runC4_first.map (fun r =>
        (r.progress.num_success, r.progress.items_total, r.status))
      = .ok (1, 1, true))
  ∧ (runC4_second.map (fun r =>
        (r.progress.num_success, r.progress.items_total, r.status, r.scratch))
      = .ok (0, 1, true, some [(("d1"), [("/w/f1")])]))
  ∧ ((0 : Int) ≠ (1 : Int)) :=
  ⟨by decide, by rfl, by decide⟩

/-- C4 (amended): when every declared file of a distribution unit
already exists at its destination — the republication situation — the
file loop counts each file as neither success nor error: it leaves
`num_success`, `num_error`, the filesystem and the effect trace
untouched, decrements `items_left` once per file, and appends every
destination path to the produced-paths list.  Republication therefore
creates no new distribution-file symlinks, but ends with
`num_success = 0` rather than `num_success = items_total`. -/
theorem C4_theorem : ∀ (env : Env) (src_dir sym_dir : String)
    (files : List String) (st : DState) (pub : List String),
    (∀ f ∈ files, st.fs.pathExists (pathJoin sym_dir f) = true) →
    distro_files_loop env src_dir sym_dir files (st, pub) =
      ({ st with progress := { st.progress with
          items_left := st.progress.items_left - (files.length : Int) } },
       pub ++ files.map (fun f => pathJoin sym_dir f)) := by
  intro env src_dir sym_dir files
  induction files with
  | nil =>
    intro st pub h
    simp [distro_files_loop]
  | cons f rest ih =>
    intro st pub h
    have hf : st.fs.pathExists (pathJoin sym_dir f) = true := h f (by simp)
    have hr : ∀ g ∈ rest, st.fs.pathExists (pathJoin sym_dir g) = true :=
      fun g hg => h g (by simp [hg])
    have step : distro_files_loop env src_dir sym_dir (f :: rest) (st, pub) =
        distro_files_loop env src_dir sym_dir rest
          ({ st with progress := { st.progress with
              items_left := st.progress.items_left - 1 } },
           pub ++ [pathJoin sym_dir f]) := by
      simp only [distro_files_loop, process_distro_file, hf, if_pos]
    rw [step, ih ({ st with progress := { st.progress with
          items_left := st.progress.items_left - 1 } })
        (pub ++ [pathJoin sym_dir f]) hr]
    simp [Prod.mk.injEq, DState.mk.injEq, Progress.mk.injEq]
    omega

def stW : DState :=
  { fs := { present := [("/w/f1")], links := [] }, progress := init_progress,
    errors := [], scratch := none, package_dir := none, effs := [] }

/-- C4 witness: the amended theorem applied at a concrete
already-published file. -/
theorem C4_witness :
    distro_files_loop envAllOk ("/s") ("/w") [("f1")] (stW, []) =
      ({ stW with progress := { stW.progress with
          items_left := stW.progress.items_left -
            (([("f1")] : List String).length : Int) } },
       [] ++ ([("f1")] : List String).map (fun f => pathJoin ("/w") f)) :=
  C4_theorem envAllOk ("/s") ("/w") [("f1")] stW [] (by decide)

/-- A package unit as consumed by `handle_symlinks`: its canonical
relative path (computed by the external `util.get_relpath_from_unit`)
and its storage path. -/
structure PkgUnit where
  relpath : String
  storage_path : String
deriving DecidableEq

/-- State threaded through the package symlink loop; `attempts`
records every `util.create_symlink` call in order. -/
structure PkgState where
  fs : Fs
  progress : Progress
  errors : List ErrTuple
  attempts : List (String × String)
deriving DecidableEq

/-- One iteration of the `handle_symlinks` loop (distributor.py lines
505 to 547).  Missing source and a failed or raising first link each
record one error and decrement `items_left` once and skip the rest.
When the first link succeeds and `self.package_dir` is set, a second
link is attempted under `symlink_dir/package_dir/relpath`; if that
second call raises, the `except` clause records one error, decrements
once and skips the `num_success` update; if it returns `False`, the
code records the error, increments `num_error`, decrements
`items_left`, and then — lacking a `continue` — still increments
`num_success` and decrements `items_left` a second time. -/
def handle_symlink_unit (env : Env) (package_dir : Option String)
    (sym_dir : String) (u : PkgUnit) (st : PkgState) : PkgState :=
  let source_path := u.storage_path
  let symlink_path := pathJoin sym_dir u.relpath
  if !(st.fs.pathExists source_path) then
    { st with
      errors := st.errors ++
        [(source_path, symlink_path, ("Source path is missing"))]
      progress := { st.progress with
        num_error := st.progress.num_error + 1
        items_left := st.progress.items_left - 1 } }
  else if env.link_raises source_path symlink_path then
    { st with
      attempts := st.attempts ++ [(source_path, symlink_path)]
      errors := st.errors ++ [(source_path, symlink_path, ("OSError"))]
      progress := { st.progress with
        num_error := st.progress.num_error + 1
        items_left := st.progress.items_left - 1 } }
  else if !(env.link_ok source_path symlink_path) then
    { st with
      attempts := st.attempts ++ [(source_path, symlink_path)]
      errors := st.errors ++
        [(source_path, symlink_path, ("Unable to create symlink"))]
      progress := { st.progress with
        num_error := st.progress.num_error + 1
        items_left := st.progress.items_left - 1 } }
  else
    let st := { st with
      fs := st.fs.addLink source_path symlink_path
      attempts := st.attempts ++ [(source_path, symlink_path)] }
    match package_dir with
    | none =>
      { st with progress := { st.progress with
          num_success := st.progress.num_success + 1
          items_left := st.progress.items_left - 1 } }
    | some pd =>
      let symlink_path2 := pathJoin (pathJoin sym_dir pd) u.relpath
      if env.link_raises source_path symlink_path2 then
        { st with
          attempts := st.attempts ++ [(source_path, symlink_path2)]
          errors := st.errors ++ [(source_path, symlink_path2, ("OSError"))]
          progress := { st.progress with
            num_error := st.progress.num_error + 1
            items_left := st.progress.items_left - 1 } }
      else if !(env.link_ok source_path symlink_path2) then
        { st with
          attempts := st.attempts ++ [(source_path, symlink_path2)]
          errors := st.errors ++
            [(source_path, symlink_path2, ("Unable to create symlink"))]
          progress := { st.progress with
            num_success := st.progress.num_success + 1
            num_error := st.progress.num_error + 1
            items_left := st.progress.items_left - 2 } }
      else
        { st with
          fs := st.fs.addLink source_path symlink_path2
          attempts := st.attempts ++ [(source_path, symlink_path2)]
          progress := { st.progress with
            num_success := st.progress.num_success + 1
            items_left := st.progress.items_left - 1 } }

def pkg_units_loop (env : Env) (package_dir : Option String)
    (sym_dir : String) : List PkgUnit → PkgState → PkgState
  | [], st => st
  | u :: rest, st =>
    pkg_units_loop env package_dir sym_dir rest
      (handle_symlink_unit env package_dir sym_dir u st)

structure PkgResult where
  status : Bool
  errors : List ErrTuple
  progress : Progress
  fs : Fs
  attempts : List (String × String)
deriving DecidableEq

/-- Model of `handle_symlinks(units, symlink_dir, ...)`.  On the error
path the source sets `error_details` but leaves the state
`IN_PROGRESS`; on success it sets the state to `FINISHED`. -/
def handle_symlinks (env : Env) (package_dir : Option String)
    (units : List PkgUnit) (sym_dir : String) (fs : Fs) : PkgResult :=
  let p0 := { init_progress with
    items_total := (units.length : Int)
    items_left := (units.length : Int) }
  let st := pkg_units_loop env package_dir sym_dir units
    { fs := fs, progress := p0, errors := [], attempts := [] }
  if st.errors.isEmpty then
    { status := true, errors := [],
      progress := { st.progress with state := .finished },
      fs := st.fs, attempts := st.attempts }
  else
    { status := false, errors := st.errors,
      progress := { st.progress with error_details := st.errors },
      fs := st.fs, attempts := st.attempts }

/-- Every branch of the package loop preserves the quantity
`num_success + num_error + items_left` and never touches
`items_total`. -/
theorem handle_symlink_unit_sum (env : Env) (package_dir : Option String)
    (sym_dir : String) (u : PkgUnit) (st : PkgState) :
    ((handle_symlink_unit env package_dir sym_dir u st).progress.num_success
      + (handle_symlink_unit env package_dir sym_dir u st).progress.num_error
      + (handle_symlink_unit env package_dir sym_dir u st).progress.items_left
      = st.progress.num_success + st.progress.num_error
        + st.progress.items_left)
    ∧ (handle_symlink_unit env package_dir sym_dir u st).progress.items_total
      = st.progress.items_total := by
  simp only [handle_symlink_unit]
  repeat' split
  all_goals exact ⟨by simp; try omega, by simp⟩

/-- The preservation property of the previous lemma, folded over the
whole unit list. -/
theorem pkg_units_loop_sum (env : Env) (package_dir : Option String)
    (sym_dir : String) : ∀ (units : List PkgUnit) (st : PkgState),
    ((pkg_units_loop env package_dir sym_dir units st).progress.num_success
      + (pkg_units_loop env package_dir sym_dir units st).progress.num_error
      + (pkg_units_loop env package_dir sym_dir units st).progress.items_left
      = st.progress.num_success + st.progress.num_error
        + st.progress.items_left)
    ∧ (pkg_units_loop env package_dir sym_dir units st).progress.items_total
      = st.progress.items_total := by
  intro units
  induction units with
  | nil => intro st; exact ⟨rfl, rfl⟩
  | cons u rest ih =>
    intro st
    have h1 := handle_symlink_unit_sum env package_dir sym_dir u st
    have h2 := ih (handle_symlink_unit env package_dir sym_dir u st)
    simp only [pkg_units_loop]
    exact ⟨by rw [h2.1, h1.1], by rw [h2.2, h1.2]⟩

/-- C5 (amended): in `handle_symlinks`, each unit's outcome either
increments exactly one of `num_success` and `num_error` and decrements
`items_left` by one, or — only possible when a package-subdirectory
override is set, namely when the second symlink call returns `False`
after the first succeeded — increments both counters and decrements
`items_left` by two.  The second symlink is attempted only when the
first link succeeded: when the first `create_symlink` returns `False`
the unit's only attempt is the first path.  In all cases the loop
maintains `num_success + num_error + items_left = items_total`; the
claim's postcondition `num_success + num_error = items_total` and
`items_left = 0` holds exactly when no double-count case occurs. -/
theorem C5_theorem :
    (∀ (env : Env) (package_dir : Option String) (units : List PkgUnit)
        (sym_dir : String) (fs : Fs),
      (handle_symlinks env package_dir units sym_dir fs).progress.num_success
        + (handle_symlinks env package_dir units sym_dir fs).progress.num_error
        + (handle_symlinks env package_dir units sym_dir fs).progress.items_left
        = (handle_symlinks env package_dir units sym_dir fs).progress.items_total)
  ∧ (∀ (env : Env) (package_dir : Option String) (sym_dir : String)
        (u : PkgUnit) (st : PkgState),
      ((handle_symlink_unit env package_dir sym_dir u st).progress.num_success
          = st.progress.num_success + 1
        ∧ (handle_symlink_unit env package_dir sym_dir u st).progress.num_error
          = st.progress.num_error
        ∧ (handle_symlink_unit env package_dir sym_dir u st).progress.items_left
          = st.progress.items_left - 1)
      ∨ ((handle_symlink_unit env package_dir sym_dir u st).progress.num_success
          = st.progress.num_success
        ∧ (handle_symlink_unit env package_dir sym_dir u st).progress.num_error
          = st.progress.num_error + 1
        ∧ (handle_symlink_unit env package_dir sym_dir u st).progress.items_left
          = st.progress.items_left - 1)
      ∨ (package_dir ≠ none
        ∧ (handle_symlink_unit env package_dir sym_dir u st).progress.num_success
          = st.progress.num_success + 1
        ∧ (handle_symlink_unit env package_dir sym_dir u st).progress.num_error
          = st.progress.num_error + 1
        ∧ (handle_symlink_unit env package_dir sym_dir u st).progress.items_left
          = st.progress.items_left - 2))
  ∧ (∀ (env : Env) (package_dir : Option String) (sym_dir : String)
        (u : PkgUnit) (st : PkgState),
      st.fs.pathExists u.storage_path = true →
      env.link_raises u.storage_path (pathJoin sym_dir u.relpath) = false →
      env.link_ok u.storage_path (pathJoin sym_dir u.relpath) = false →
      (handle_symlink_unit env package_dir sym_dir u st).attempts
        = st.attempts ++ [(u.storage_path, pathJoin sym_dir u.relpath)]) := by
  refine ⟨?_, ?_, ?_⟩
  · intro env package_dir units sym_dir fs
    have h := pkg_units_loop_sum env package_dir sym_dir units
      { fs := fs,
        progress := { init_progress with
          items_total := (units.length : Int)
          items_left := (units.length : Int) },
        errors := [], attempts := [] }
    simp only [handle_symlinks]
    split
    · simpa using by rw [h.1, h.2]; simp [init_progress]
    · simpa using by rw [h.1, h.2]; simp [init_progress]
  · intro env package_dir sym_dir u st
    simp only [handle_symlink_unit]
    repeat' split
    all_goals first
      | (left; simp; done)
      | (right; left; simp; done)
      | (right; right; simp; done)
  · intro env package_dir sym_dir u st h1 h2 h3
    simp [handle_symlink_unit, h1, h2, h3]

def pkgU1 : PkgUnit := { relpath := ("r1"), storage_path := ("/s/r1") }

def fsPkg : Fs := { present := [("/s/r1")], links := [] }

def pkgSt0 : PkgState :=
  { fs := fsPkg, progress := init_progress, errors := [], attempts := [] }

/-- An environment where only the package-subdirectory link fails. -/
def envSecondFail : Env :=
  { link_ok := fun _ d => !(d == ("/t/pd/r1")),
    link_raises := fun _ _ => false,
    listing_raises := fun _ _ => false }

/-- An environment where the first link fails. -/
def envFirstFail : Env :=
  { link_ok := fun _ d => !(d == ("/t/r1")),
    link_raises := fun _ _ => false,
    listing_raises := fun _ _ => false }

/-- C5 counterexample: with a package-subdirectory override and a
second link that fails after the first succeeded, one unit increments
both counters and decrements `items_left` twice, so afterwards
`num_success + num_error = 2 ≠ 1 = items_total` and
`items_left = -1 ≠ 0`; and with a failing first link the second link
is never attempted, contradicting the claimed independence. -/
theorem C5_counterexample :
    ((fun r => (r.progress.num_success, r.progress.num_error,
        r.progress.items_left, r.progress.items_total, r.status))
      (handle_symlinks envSecondFail (some ("pd")) [pkgU1] ("/t") fsPkg)
      = (1, 1, -1, 1, false))
  ∧ ((1 : Int) + 1 ≠ 1)
  ∧ ((handle_symlinks envFirstFail (some ("pd")) [pkgU1] ("/t") fsPkg).attempts
      = [(("/s/r1"), ("/t/r1"))]) :=
  ⟨by decide, by decide, by decide⟩

/-- C5 witness: the amended theorem applied at concrete inputs. -/
theorem C5_witness :
    ((handle_symlinks envAllOk none [pkgU1] ("/t") fsPkg).progress.num_success
      + (handle_symlinks envAllOk none [pkgU1] ("/t") fsPkg).progress.num_error
      + (handle_symlinks envAllOk none [pkgU1] ("/t") fsPkg).progress.items_left
      = (handle_symlinks envAllOk none [pkgU1] ("/t") fsPkg).progress.items_total)
  ∧ ((handle_symlink_unit envFirstFail (some ("pd")) ("/t") pkgU1
        pkgSt0).attempts
      = pkgSt0.attempts ++ [(("/s/r1"), pathJoin ("/t") ("r1"))]) :=
  ⟨C5_theorem.1 envAllOk none [pkgU1] ("/t") fsPkg,
   C5_theorem.2.2 envFirstFail (some ("pd")) ("/t") pkgU1 pkgSt0
     (by decide) (by decide) (by decide)⟩

def HTTP_PUBLISH_DIR : String := ("/var/lib/pulp/published/http/repos")

def HTTPS_PUBLISH_DIR : String := ("/var/lib/pulp/published/https/repos")

def truthyOpt : Option PyVal → Bool
  | none => false
  | some v => truthy v

def get_http_publish_dir (cfg : PyConfig) : String :=
  match cfg.get ("http_publish_dir") with
  | some v => if truthy v then valStr v else HTTP_PUBLISH_DIR
  | none => HTTP_PUBLISH_DIR

def get_https_publish_dir (cfg : PyConfig) : String :=
  match cfg.get ("https_publish_dir") with
  | some v => if truthy v then valStr v else HTTPS_PUBLISH_DIR
  | none => HTTPS_PUBLISH_DIR

/-- Model of `get_repo_relative_path`: the configured `relative_url`
when truthy, otherwise the repository id. -/
def get_repo_relative_path (repo : Repo) (cfg : PyConfig) : PyVal :=
  match cfg.get ("relative_url") with
  | some v => if truthy v then v else .str repo.id
  | none => .str repo.id

/-- Model of `config.get(chr(115)kip) or []` as consumed by the
membership tests of `publish_repo`. -/
def skipList (cfg : PyConfig) : List String :=
  match cfg.get ("skip") with
  | some (.list l) => l
  | _ => []

/-- Result of one protocol publish step. -/
structure StepResult where
  state : PState
  fs : Fs
  effs : List Eff
  summary_dir : Option String
deriving DecidableEq

/-- One protocol block of `publish_repo` (lines 404 to 438): when the
protocol is enabled, try the root symlink and the listing
regeneration, recording `FINISHED`, or `FAILED` when either raises;
when disabled, mark `SKIPPED` and remove a link that `lexists`. -/
def protocol_step (env : Env) (enabled : Bool) (wd root dir : String)
    (fs : Fs) : StepResult :=
  if enabled then
    let effs := [Eff.createLink wd dir]
    if env.link_raises wd dir then
      { state := .failed, fs := fs, effs := effs, summary_dir := none }
    else
      let fs1 := if env.link_ok wd dir then fs.addLink wd dir else fs
      let effs := effs ++ [Eff.genListing root dir]
      if env.listing_raises root dir then
        { state := .failed, fs := fs1, effs := effs, summary_dir := none }
      else
        { state := .finished, fs := fs1, effs := effs, summary_dir := some dir }
  else
    if fs.lexists dir then
      { state := .skipped, fs := fs.removePath dir,
        effs := [Eff.removePublishDir root dir], summary_dir := none }
    else
      { state := .skipped, fs := fs, effs := [], summary_dir := none }

structure ProtoResult where
  https_state : PState
  http_state : PState
  fs : Fs
  effs : List Eff
  summary_https : Option String
  summary_http : Option String
deriving DecidableEq

/-- The HTTPS block followed by the HTTP block, in source order, the
second over the filesystem left by the first. -/
def publish_protocol_links (env : Env) (https_on http_on : Bool)
    (wd https_root https_dir http_root http_dir : String) (fs : Fs) :
    ProtoResult :=
  let h := protocol_step env https_on wd https_root https_dir fs
  let p := protocol_step env http_on wd http_root http_dir h.fs
  { https_state := h.state, http_state := p.state, fs := p.fs,
    effs := h.effs ++ p.effs, summary_https := h.summary_dir,
    summary_http := p.summary_dir }

inductive ReportKind where
  | success
  | failure
  | cancel
deriving DecidableEq

/-- The observable outcome of one `publish_repo` invocation: the report
kind, the summary counts that matter here, the `details` error list,
final progress states, the filesystem, the effect trace, and the two
persisted scratchpad values. -/
structure Report where
  kind : ReportKind
  relative_path : String
  errors : List ErrTuple
  num_package_units_attempted : Nat
  num_package_units_errors : Nat
  num_distribution_units_attempted : Nat
  num_distribution_units_errors : Nat
  num_package_groups_published : Nat
  num_package_categories_published : Nat
  skip_metadata_update : Bool
  packages_progress : Progress
  distribution_progress : Progress
  publish_https_state : PState
  publish_http_state : PState
  fs : Fs
  effs : List Eff
  manifest_after : Option Manifest
  old_rel_path_after : Option String
deriving DecidableEq

/-- The inputs of one `publish_repo` invocation, with the external
collaborator outcomes (unit queries, metadata generation, scratchpad
loads) supplied as data. -/
structure PublishArgs where
  repo : Repo
  config : PyConfig
  canceled : Bool
  distro_units : List DistroUnit
  pkg_units : List PkgUnit
  meta_status : Bool
  meta_errors : List ErrTuple
  scratch : Option Manifest
  old_rel_path : Option String
  groups : Nat
  cats : Nat
  fs : Fs
  env : Env

/-- The report built by the early cancellation check (empty summary
and details). -/
def cancelReport (fs : Fs) : Report :=
  { kind := .cancel, relative_path := (""), errors := [],
    num_package_units_attempted := 0, num_package_units_errors := 0,
    num_distribution_units_attempted := 0, num_distribution_units_errors := 0,
    num_package_groups_published := 0, num_package_categories_published := 0,
    skip_metadata_update := false, packages_progress := progressNotStarted,
    distribution_progress := progressNotStarted,
    publish_https_state := .not_started, publish_http_state := .not_started,
    fs := fs, effs := [], manifest_after := none, old_rel_path_after := none }

/-- The distribution phase of `publish_repo`: skipped via the `skip`
list, otherwise `symlink_distribution_unit_files`. -/
def distroPhase (a : PublishArgs) : Except PyErr DistroResult :=
  if (skipList a.config).contains ("distribution") then
    .ok { status := true, errors := [], progress := progressNotStarted,
          fs := a.fs, scratch := a.scratch, package_dir := none, effs := [] }
  else
    symlink_distribution_unit_files a.env a.distro_units a.repo.working_dir
      a.scratch a.fs none

/-- The package phase of `publish_repo`: skipped via the `skip` list,
otherwise `handle_symlinks` with the `package_dir` left behind by the
distribution phase. -/
def pkgPhase (a : PublishArgs) (package_dir : Option String) (fs : Fs) :
    PkgResult :=
  if (skipList a.config).contains ("rpm") then
    { status := true, errors := [], progress := progressNotStarted,
      fs := fs, attempts := [] }
  else handle_symlinks a.env package_dir a.pkg_units a.repo.working_dir fs

/-- Everything `publish_repo` does after the distribution phase:
packages, metadata outcome, path computation, old-path migration, the
two protocol blocks, and the final report aggregation in which
`details.errors` is the package error list concatenated with the
distribution error list and the metadata errors are excluded. -/
def publish_repo_body (a : PublishArgs) (d : DistroResult) : Report :=
  let wd := a.repo.working_dir
  let skip := skipList a.config
  let pkgR := pkgPhase a d.package_dir d.fs
  let relpath := stripLeadingSlash (valStr (get_repo_relative_path a.repo a.config))
  let https_root := get_https_publish_dir a.config
  let https_dir := rstripSlash (pathJoin https_root relpath)
  let http_root := get_http_publish_dir a.config
  let http_dir := rstripSlash (pathJoin http_root relpath)
  let mig :=
    match a.old_rel_path with
    | none => (pkgR.fs, ([] : List Eff))
    | some old =>
      let oh := pathJoin https_root old
      let m1 :=
        if pkgR.fs.pathExists oh then
          (pkgR.fs.removePath oh, [Eff.removePublishDir https_root oh])
        else (pkgR.fs, ([] : List Eff))
      let op := pathJoin http_root old
      if m1.1.pathExists op then
        (m1.1.removePath op, m1.2 ++ [Eff.removePublishDir http_root op])
      else m1
  let proto := publish_protocol_links a.env (truthyOpt (a.config.get ("https")))
    (truthyOpt (a.config.get ("http"))) wd https_root https_dir http_root
    http_dir mig.1
  let used_distro := if skip.contains ("distribution") then [] else a.distro_units
  let used_pkg := if skip.contains ("rpm") then [] else a.pkg_units
  let errorsAll := pkgR.errors ++ d.errors
  { kind := if errorsAll.isEmpty then .success else .failure,
    relative_path := relpath,
    errors := errorsAll,
    num_package_units_attempted := used_pkg.length,
    num_package_units_errors := pkgR.errors.length,
    num_distribution_units_attempted := used_distro.length,
    num_distribution_units_errors := d.errors.length,
    num_package_groups_published :=
      if skip.contains ("packagegroup") then 0 else a.groups,
    num_package_categories_published :=
      if skip.contains ("packagegroup") then 0 else a.cats,
    skip_metadata_update := (!a.meta_status) && a.meta_errors.isEmpty,
    packages_progress := pkgR.progress,
    distribution_progress := d.progress,
    publish_https_state := proto.https_state,
    publish_http_state := proto.http_state,
    fs := proto.fs,
    effs := d.effs ++ mig.2 ++ proto.effs,
    manifest_after := d.scratch,
    old_rel_path_after := some relpath }

/-- Model of `publish_repo`: the cancellation check, the distribution
phase (whose uncaught exceptions abort the call), then the rest. -/
def publish_repo (a : PublishArgs) : Except PyErr Report :=
  if a.canceled then .ok (cancelReport a.fs)
  else
    match distroPhase a with
    | .error e => .error e
    | .ok d => .ok (publish_repo_body a d)

/-- Filtering out entries for one path does not change membership of a
different path. -/
theorem contains_filter_ne (l : List String) (p q : String) (h : ¬(p = q)) :
    (l.filter (fun x => !(x == q))).contains p = l.contains p := by
  induction l with
  | nil => rfl
  | cons x xs ih =>
    by_cases hx : x = q
    · subst hx
      have hpx : (p == x) = false := beq_eq_false_iff_ne.mpr h
      simp only [List.filter, beq_self_eq_true, Bool.not_true,
        List.contains_cons, hpx, Bool.false_or, ih]
    · have hb : (x == q) = false := beq_eq_false_iff_ne.mpr hx
      simp only [List.filter, hb, Bool.not_false, List.contains_cons, ih]

/-- Filtering out association entries keyed by one path does not change
lookup of a different path. -/
theorem lookup_filter_ne (l : List (String × String)) (p q : String)
    (h : ¬(p = q)) :
    (l.filter (fun e => !(e.1 == q))).lookup p = l.lookup p := by
  induction l with
  | nil => rfl
  | cons x xs ih =>
    by_cases hx : x.1 = q
    · have hb : (x.1 == q) = true := beq_iff_eq.mpr hx
      have hpx : (p == x.1) = false := beq_eq_false_iff_ne.mpr (hx ▸ h)
      simp only [List.filter, hb, Bool.not_true, List.lookup, hpx, ih]
    · have hb : (x.1 == q) = false := beq_eq_false_iff_ne.mpr hx
      simp only [List.filter, hb, Bool.not_false, List.lookup, ih]

/-- Membership of a path in a list filtered at that very path. -/
theorem contains_filter_self (l : List String) (p : String) :
    (l.filter (fun x => !(x == p))).contains p = false := by
  induction l with
  | nil => rfl
  | cons x xs ih =>
    by_cases hx : x = p
    · subst hx
      simp only [List.filter, beq_self_eq_true, Bool.not_true, ih]
    · have hb : (x == p) = false := beq_eq_false_iff_ne.mpr hx
      have hpx : (p == x) = false :=
        beq_eq_false_iff_ne.mpr (fun hh => hx hh.symm)
      simp only [List.filter, hb, Bool.not_false, List.contains_cons, hpx,
        Bool.false_or, ih]

/-- Lookup of a key in an association list filtered at that key. -/
theorem lookup_filter_self (l : List (String × String)) (p : String) :
    (l.filter (fun e => !(e.1 == p))).lookup p = none := by
  induction l with
  | nil => rfl
  | cons x xs ih =>
    by_cases hx : x.1 = p
    · have hb : (x.1 == p) = true := beq_iff_eq.mpr hx
      simp only [List.filter, hb, Bool.not_true, ih]
    · have hb : (x.1 == p) = false := beq_eq_false_iff_ne.mpr hx
      have hpx : (p == x.1) = false :=
        beq_eq_false_iff_ne.mpr (fun hh => hx hh.symm)
      simp only [List.filter, hb, Bool.not_false, List.lookup, hpx, ih]

/-- Removing a path makes `lexists` false at that path. -/
theorem lexists_removePath_self (fs : Fs) (p : String) :
    (fs.removePath p).lexists p = false := by
  simp only [Fs.lexists, Fs.removePath, Fs.pathExists, Fs.islink,
    contains_filter_self, lookup_filter_self, Option.isSome_none,
    Bool.or_false]

/-- `removePath` leaves `lexists` unchanged at other paths. -/
theorem lexists_removePath_other (fs : Fs) (p q : String) (h : ¬(p = q)) :
    (fs.removePath q).lexists p = fs.lexists p := by
  simp only [Fs.lexists, Fs.removePath, Fs.pathExists, Fs.islink]
  rw [contains_filter_ne _ _ _ h]
  have := lookup_filter_ne fs.links p q h
  simp only [this]

/-- `addLink` leaves `lexists` unchanged at paths other than the
destination. -/
theorem lexists_addLink_other (fs : Fs) (src dst p : String)
    (h : ¬(p = dst)) :
    (fs.addLink src dst).lexists p = fs.lexists p := by
  simp only [Fs.lexists, Fs.addLink, Fs.pathExists, Fs.islink]
  have hpd : (p == dst) = false := by simp [h]
  have hmem : ((if fs.present.contains dst then fs.present
      else dst :: fs.present).contains p) = fs.present.contains p := by
    split
    · rfl
    · rw [List.contains_cons, hpd]
      simp
  rw [hmem]
  have hlk : (((dst, src) :: fs.links.filter
      (fun e => !(e.1 == dst))).lookup p) = fs.links.lookup p := by
    simp only [List.lookup, hpd]
    exact lookup_filter_ne fs.links p dst h
  simp only [hlk]

/-- A protocol block over a filesystem does not change `lexists` at any
path other than its own publish directory. -/
theorem protocol_step_lexists_other (env : Env) (enabled : Bool)
    (wd root dir : String) (fs : Fs) (p : String) (h : ¬(p = dir)) :
    (protocol_step env enabled wd root dir fs).fs.lexists p = fs.lexists p := by
  simp only [protocol_step]
  split
  · split
    · rfl
    · split
      · split
        · exact lexists_addLink_other fs wd dir p h
        · rfl
      · split
        · exact lexists_addLink_other fs wd dir p h
        · rfl
  · split
    · exact lexists_removePath_other fs p dir h
    · rfl

/-- An enabled protocol block in which neither external call raises
finishes and records both the symlink creation and the listing
regeneration. -/
theorem protocol_step_finished (env : Env) (wd root dir : String) (fs : Fs)
    (h : (env.link_raises wd dir || env.listing_raises root dir) = false) :
    (protocol_step env true wd root dir fs).state = .finished
    ∧ Eff.createLink wd dir ∈ (protocol_step env true wd root dir fs).effs
    ∧ Eff.genListing root dir ∈ (protocol_step env true wd root dir fs).effs := by
  have h1 : env.link_raises wd dir = false := by
    cases hx : env.link_raises wd dir
    · rfl
    · rw [hx] at h; simp at h
  have h2 : env.listing_raises root dir = false := by
    cases hx : env.listing_raises root dir
    · rfl
    · rw [hx] at h; simp at h
  simp [protocol_step, h1, h2]

/-- An enabled protocol block in which one of the external calls raises
is marked failed; the symlink call was still attempted. -/
theorem protocol_step_failed (env : Env) (wd root dir : String) (fs : Fs)
    (h : (env.link_raises wd dir || env.listing_raises root dir) = true) :
    (protocol_step env true wd root dir fs).state = .failed
    ∧ Eff.createLink wd dir ∈ (protocol_step env true wd root dir fs).effs := by
  cases hx : env.link_raises wd dir
  · have h2 : env.listing_raises root dir = true := by
      rw [hx] at h; simpa using h
    simp [protocol_step, hx, h2]
  · simp [protocol_step, hx]

/-- A disabled protocol block is marked skipped, removes the published
link exactly when one exists, and leaves nothing at the publish
directory. -/
theorem protocol_step_skipped (env : Env) (wd root dir : String) (fs : Fs) :
    (protocol_step env false wd root dir fs).state = .skipped
    ∧ (fs.lexists dir = true →
        Eff.removePublishDir root dir ∈ (protocol_step env false wd root dir fs).effs)
    ∧ (protocol_step env false wd root dir fs).fs.lexists dir = false := by
  cases hl : fs.lexists dir
  · simp [protocol_step, hl]
  · simp [protocol_step, hl, lexists_removePath_self]

/-- C9: protocol independence of the two publish blocks.  For each of
HTTPS then HTTP, considered independently (the HTTP conjuncts hold for
every environment, in particular when the HTTPS block raised): an
enabled protocol whose calls do not raise finishes with the root link
created and the listing regenerated; an enabled protocol with a raise
is marked failed after the link attempt; a disabled protocol is marked
skipped, removes an existing published link, and ends with nothing at
its publish directory.  The two publish directories are assumed
distinct (they live under different roots). -/
theorem C9_theorem : ∀ (env : Env) (https_on http_on : Bool)
    (wd https_root https_dir http_root http_dir : String) (fs : Fs),
    ¬(https_dir = http_dir) →
    ((https_on = true ∧ (env.link_raises wd https_dir
        || env.listing_raises https_root https_dir) = false →
      (publish_protocol_links env https_on http_on wd https_root https_dir
          http_root http_dir fs).https_state = .finished
      ∧ Eff.createLink wd https_dir ∈ (publish_protocol_links env https_on
          http_on wd https_root https_dir http_root http_dir fs).effs
      ∧ Eff.genListing https_root https_dir ∈ (publish_protocol_links env
          https_on http_on wd https_root https_dir http_root http_dir fs).effs)
    ∧ (https_on = true ∧ (env.link_raises wd https_dir
        || env.listing_raises https_root https_dir) = true →
      (publish_protocol_links env https_on http_on wd https_root https_dir
          http_root http_dir fs).https_state = .failed
      ∧ Eff.createLink wd https_dir ∈ (publish_protocol_links env https_on
          http_on wd https_root https_dir http_root http_dir fs).effs)
    ∧ (https_on = false →
      (publish_protocol_links env https_on http_on wd https_root https_dir
          http_root http_dir fs).https_state = .skipped
      ∧ (fs.lexists https_dir = true →
          Eff.removePublishDir https_root https_dir ∈ (publish_protocol_links
            env https_on http_on wd https_root https_dir http_root http_dir
            fs).effs)
      ∧ (publish_protocol_links env https_on http_on wd https_root https_dir
          http_root http_dir fs).fs.lexists https_dir = false)
    ∧ (http_on = true ∧ (env.link_raises wd http_dir
        || env.listing_raises http_root http_dir) = false →
      (publish_protocol_links env https_on http_on wd https_root https_dir
          http_root http_dir fs).http_state = .finished
      ∧ Eff.createLink wd http_dir ∈ (publish_protocol_links env https_on
          http_on wd https_root https_dir http_root http_dir fs).effs
      ∧ Eff.genListing http_root http_dir ∈ (publish_protocol_links env
          https_on http_on wd https_root https_dir http_root http_dir fs).effs)
    ∧ (http_on = true ∧ (env.link_raises wd http_dir
        || env.listing_raises http_root http_dir) = true →
      (publish_protocol_links env https_on http_on wd https_root https_dir
          http_root http_dir fs).http_state = .failed
      ∧ Eff.createLink wd http_dir ∈ (publish_protocol_links env https_on
          http_on wd https_root https_dir http_root http_dir fs).effs)
    ∧ (http_on = false →
      (publish_protocol_links env https_on http_on wd https_root https_dir
          http_root http_dir fs).http_state = .skipped
      ∧ (fs.lexists http_dir = true →
          Eff.removePublishDir http_root http_dir ∈ (publish_protocol_links
            env https_on http_on wd https_root https_dir http_root http_dir
            fs).effs)
      ∧ (publish_protocol_links env https_on http_on wd https_root https_dir
          http_root http_dir fs).fs.lexists http_dir = false)) := by
  intro env https_on http_on wd https_root https_dir http_root http_dir fs hne
  simp only [publish_protocol_links]
  refine ⟨?_, ?_, ?_, ?_, ?_, ?_⟩
  · rintro ⟨h1, h2⟩
    subst h1
    have hf := protocol_step_finished env wd https_root https_dir fs h2
    exact ⟨hf.1, List.mem_append_left _ hf.2.1, List.mem_append_left _ hf.2.2⟩
  · rintro ⟨h1, h2⟩
    subst h1
    have hf := protocol_step_failed env wd https_root https_dir fs h2
    exact ⟨hf.1, List.mem_append_left _ hf.2⟩
  · intro h1
    subst h1
    have hs := protocol_step_skipped env wd https_root https_dir fs
    refine ⟨hs.1, fun hl => List.mem_append_left _ (hs.2.1 hl), ?_⟩
    rw [protocol_step_lexists_other env http_on wd http_root http_dir _
      https_dir hne]
    exact hs.2.2
  · rintro ⟨h1, h2⟩
    subst h1
    have hf := protocol_step_finished env wd http_root http_dir
      (protocol_step env https_on wd https_root https_dir fs).fs h2
    exact ⟨hf.1, List.mem_append_right _ hf.2.1,
      List.mem_append_right _ hf.2.2⟩
  · rintro ⟨h1, h2⟩
    subst h1
    have hf := protocol_step_failed env wd http_root http_dir
      (protocol_step env https_on wd https_root https_dir fs).fs h2
    exact ⟨hf.1, List.mem_append_right _ hf.2⟩
  · intro h1
    subst h1
    have hs := protocol_step_skipped env wd http_root http_dir
      (protocol_step env https_on wd https_root https_dir fs).fs
    have heq : (protocol_step env https_on wd https_root https_dir
        fs).fs.lexists http_dir = fs.lexists http_dir :=
      protocol_step_lexists_other env https_on wd https_root https_dir fs
        http_dir (fun hh => hne hh.symm)
    refine ⟨hs.1, fun hl => ?_, hs.2.2⟩
    exact List.mem_append_right _ (hs.2.1 (by rw [heq]; exact hl))

/-- C9 witness: the theorem applied to a concrete configuration with
HTTPS disabled (while a stale HTTPS link exists) and HTTP enabled. -/
theorem C9_witness :
    ((publish_protocol_links envAllOk false true ("/w") ("/hsr") ("/hsr/z")
        ("/htr") ("/htr/z")
        { present := [("/hsr/z")], links := [(("/hsr/z"), ("/w"))] }).https_state
      = .skipped
    ∧ (({ present := [("/hsr/z")],
          links := [(("/hsr/z"), ("/w"))] } : Fs).lexists ("/hsr/z") = true →
        Eff.removePublishDir ("/hsr") ("/hsr/z") ∈ (publish_protocol_links
          envAllOk false true ("/w") ("/hsr") ("/hsr/z") ("/htr") ("/htr/z")
          { present := [("/hsr/z")], links := [(("/hsr/z"), ("/w"))] }).effs)
    ∧ (publish_protocol_links envAllOk false true ("/w") ("/hsr") ("/hsr/z")
        ("/htr") ("/htr/z")
        { present := [("/hsr/z")],
          links := [(("/hsr/z"), ("/w"))] }).fs.lexists ("/hsr/z") = false)
  ∧ ((publish_protocol_links envAllOk false true ("/w") ("/hsr") ("/hsr/z")
        ("/htr") ("/htr/z")
        { present := [("/hsr/z")], links := [(("/hsr/z"), ("/w"))] }).http_state
      = .finished
    ∧ Eff.createLink ("/w") ("/htr/z") ∈ (publish_protocol_links envAllOk
        false true ("/w") ("/hsr") ("/hsr/z") ("/htr") ("/htr/z")
        { present := [("/hsr/z")], links := [(("/hsr/z"), ("/w"))] }).effs
    ∧ Eff.genListing ("/htr") ("/htr/z") ∈ (publish_protocol_links envAllOk
        false true ("/w") ("/hsr") ("/hsr/z") ("/htr") ("/htr/z")
        { present := [("/hsr/z")], links := [(("/hsr/z"), ("/w"))] }).effs) :=
  ⟨(C9_theorem envAllOk false true ("/w") ("/hsr") ("/hsr/z") ("/htr")
      ("/htr/z") { present := [("/hsr/z")], links := [(("/hsr/z"), ("/w"))] }
      (by decide)).2.2.1 rfl,
   (C9_theorem envAllOk false true ("/w") ("/hsr") ("/hsr/z") ("/htr")
      ("/htr/z") { present := [("/hsr/z")], links := [(("/hsr/z"), ("/w"))] }
      (by decide)).2.2.2.1 ⟨rfl, rfl⟩⟩

/-- The distribution phase never reads the metadata-generation
outcome. -/
theorem distroPhase_meta_irrel (a : PublishArgs) (s : Bool)
    (e : List ErrTuple) :
    distroPhase { a with meta_status := s, meta_errors := e } = distroPhase a :=
  rfl

/-- The final report kind and error list never read the
metadata-generation outcome (it only feeds `skip_metadata_update`). -/
theorem publish_repo_body_meta_irrel (a : PublishArgs) (s : Bool)
    (e : List ErrTuple) (d : DistroResult) :
    ((publish_repo_body { a with meta_status := s, meta_errors := e } d).kind
      = (publish_repo_body a d).kind)
    ∧ ((publish_repo_body { a with meta_status := s, meta_errors := e }
          d).errors
      = (publish_repo_body a d).errors) :=
  ⟨rfl, rfl⟩

/-- C6: for every publish invocation that runs to completion (not
canceled, no uncaught exception), the report is a failure report
exactly when the concatenated package plus distribution error list is
non-empty and a success report exactly when it is empty; it is never a
cancellation; and replacing the metadata-generation outcome by any
other changes neither the report kind nor the error list. -/
theorem C6_theorem : ∀ (a : PublishArgs), a.canceled = false →
    ∀ (r : Report), publish_repo a = .ok r →
    ((r.kind = .failure ↔ ¬(r.errors = []))
    ∧ (r.kind = .success ↔ r.errors = [])
    ∧ ¬(r.kind = .cancel)
    ∧ (∀ (s : Bool) (e : List ErrTuple) (r2 : Report),
        publish_repo { a with meta_status := s, meta_errors := e } = .ok r2 →
        r2.kind = r.kind ∧ r2.errors = r.errors)) := by
  intro a hc r h
  simp only [publish_repo, hc, Bool.false_eq_true, if_false] at h
  cases hd : distroPhase a with
  | error ex =>
    rw [hd] at h
    simp at h
  | ok d =>
    rw [hd] at h
    simp only [Except.ok.injEq] at h
    subst h
    have hk : (publish_repo_body a d).kind =
        (if ((pkgPhase a d.package_dir d.fs).errors ++ d.errors).isEmpty
          then ReportKind.success else ReportKind.failure) := rfl
    have he : (publish_repo_body a d).errors =
        (pkgPhase a d.package_dir d.fs).errors ++ d.errors := rfl
    refine ⟨?_, ?_, ?_, ?_⟩
    · rw [hk, he]
      cases hEe : ((pkgPhase a d.package_dir d.fs).errors ++ d.errors).isEmpty
      · have hne : ¬((pkgPhase a d.package_dir d.fs).errors ++ d.errors = [])
          := by
          intro hnil
          rw [hnil] at hEe
          simp at hEe
        simp [hEe, hne]
      · have hnil : (pkgPhase a d.package_dir d.fs).errors ++ d.errors = []
          := by
          cases hx : (pkgPhase a d.package_dir d.fs).errors ++ d.errors
          · rfl
          · rw [hx] at hEe; simp at hEe
        simp [hEe, hnil]
    · rw [hk, he]
      cases hEe : ((pkgPhase a d.package_dir d.fs).errors ++ d.errors).isEmpty
      · have hne : ¬((pkgPhase a d.package_dir d.fs).errors ++ d.errors = [])
          := by
          intro hnil
          rw [hnil] at hEe
          simp at hEe
        simp [hEe, hne]
      · have hnil : (pkgPhase a d.package_dir d.fs).errors ++ d.errors = []
          := by
          cases hx : (pkgPhase a d.package_dir d.fs).errors ++ d.errors
          · rfl
          · rw [hx] at hEe; simp at hEe
        simp [hEe, hnil]
    · rw [hk]
      cases hEe : ((pkgPhase a d.package_dir d.fs).errors ++ d.errors).isEmpty
        <;> simp [hEe]
    · intro s e r2 h2
      have hcc : ¬(({ a with meta_status := s, meta_errors := e } :
          PublishArgs).canceled = true) := by
        simp [hc]
      unfold publish_repo at h2
      rw [if_neg hcc, distroPhase_meta_irrel, hd] at h2
      simp only [Except.ok.injEq] at h2
      subst h2
      exact ⟨(publish_repo_body_meta_irrel a s e d).1,
        (publish_repo_body_meta_irrel a s e d).2⟩

/-- A publish invocation over an empty repository with HTTPS disabled
and HTTP enabled, used as the concrete C6 instance. -/
def pubArgs0 : PublishArgs :=
  { repo := { id := ("r0"), working_dir := ("/w") },
    config := { entries := [(("relative_url"), .str ("zoo")),
      (("http"), .bool true), (("https"), .bool false)] },
    canceled := false, distro_units := [], pkg_units := [],
    meta_status := true, meta_errors := [], scratch := none,
    old_rel_path := none, groups := 0, cats := 0,
    fs := { present := [], links := [] }, env := envAllOk }

def rep0 : Report :=
  (publish_repo pubArgs0).toOption.getD (cancelReport { present := [], links := [] })

/-- C6 witness: the theorem applied to the concrete invocation. -/
theorem C6_witness :
    (rep0.kind = .failure ↔ ¬(rep0.errors = []))
    ∧ (rep0.kind = .success ↔ rep0.errors = []) :=
  ⟨(C6_theorem pubArgs0 rfl rep0 (by rfl)).1,
   (C6_theorem pubArgs0 rfl rep0 (by rfl)).2.1⟩

def REQUIRED_CONFIG_KEYS : List String :=
  [("relative_url"), ("http"), ("https")]

def OPTIONAL_CONFIG_KEYS : List String :=
  [("protected"), ("auth_cert"), ("auth_ca"), ("https_ca"), ("gpgkey"),
   ("checksum_type"), ("skip"), ("https_publish_dir"), ("http_publish_dir"),
   ("use_createrepo"), ("skip_pkg_tags")]

/-- The character class accepted by the relative-url check. -/
def allowedChar (c : Char) : Bool :=
  c.isAlpha || c.isDigit || c == ('/') || c == ('_') || c == ('-')

/-- Truthiness of `re.match` with the pattern that negates the class
above, one-or-more times: `re.match` anchors at the start of the
string, so a match exists exactly when the first character lies outside
the allowed class. -/
def re_match_nonallowed (s : String) : Bool :=
  match s.data with
  | [] => false
  | c :: _ => !(allowedChar c)

def relUrlCharMsg : String :=
  ("relative_url must contain only alphanumerics, underscores, and dashes.")

/-- One iteration of the required-keys loop of `validate_config`
(lines 119 to 147): missing key, relative-url type and character
checks, http and https type checks. -/
def check_required_key (cfg : PyConfig) (key : String) : Option String :=
  match cfg.get key with
  | none => some (("Missing required configuration key: ") ++ key)
  | some v =>
    if key == ("relative_url") then
      match v with
      | .str s => if re_match_nonallowed s then some relUrlCharMsg else none
      | _ => some (("relative_url should be a basestring; got ")
          ++ valStr v ++ (" instead"))
    else if key == ("http") then
      match v with
      | .bool _ => none
      | _ => some (("http should be a boolean; got ") ++ valStr v
          ++ (" instead"))
    else if key == ("https") then
      match v with
      | .bool _ => none
      | _ => some (("https should be a boolean; got ") ++ valStr v
          ++ (" instead"))
    else none

def required_keys_loop (cfg : PyConfig) : List String → Option String
  | [] => none
  | k :: rest =>
    match check_required_key cfg k with
    | some m => some m
    | none => required_keys_loop cfg rest

/-- The `auth_cert_bundle` dictionary accumulated by the validator. -/
structure CertBundle where
  cert : Option String
  ca : Option String
deriving DecidableEq

def CertBundle.nonempty (b : CertBundle) : Bool :=
  b.cert.isSome || b.ca.isSome

structure ConflictItem where
  repo_id : String
  relative_url : Option String
deriving DecidableEq

/-- Oracles for the external collaborators of `validate_config`:
checksum and certificate validation, the `os.path` and `os.access`
checks on override publish directories, and the relative-url conflict
query. -/
structure ValEnv where
  valid_checksum : String → Bool
  valid_cert : String → Bool
  path_exists : String → Bool
  is_dir : String → Bool
  can_read : String → Bool
  can_write : String → Bool
  conflicts : String → String → List ConflictItem

/-- One iteration of the all-keys loop (lines 148 to 190): unknown
keys, type checks for protected, use_createrepo, checksum_type and
skip, and certificate validation for auth_cert and auth_ca (whose
`.encode` call raises `AttributeError` on a non-string value). -/
def check_config_key (env : ValEnv) (k : String) (v : PyVal) (b : CertBundle) :
    Except PyErr (Option String × CertBundle) :=
  if !(REQUIRED_CONFIG_KEYS.contains k) && !(OPTIONAL_CONFIG_KEYS.contains k)
  then .ok (some (("Configuration key ") ++ k ++ (" is not supported")), b)
  else if k == ("protected") then
    match v with
    | .bool _ => .ok (none, b)
    | _ => .ok (some (("protected should be a boolean; got ") ++ valStr v
        ++ (" instead")), b)
  else if k == ("use_createrepo") then
    match v with
    | .bool _ => .ok (none, b)
    | _ => .ok (some (("use_createrepo should be a boolean; got ") ++ valStr v
        ++ (" instead")), b)
  else if k == ("checksum_type") then
    if env.valid_checksum (valStr v) then .ok (none, b)
    else .ok (some (valStr v ++ (" is not a valid checksum type")), b)
  else if k == ("skip") then
    match v with
    | .list _ => .ok (none, b)
    | _ => .ok (some (("skip should be a dictionary; got ") ++ valStr v
        ++ (" instead")), b)
  else if k == ("auth_cert") then
    match v with
    | .str s =>
      if env.valid_cert s then .ok (none, { b with cert := some s })
      else .ok (some ("auth_cert is not a valid certificate"), b)
    | _ => .error .attributeError
  else if k == ("auth_ca") then
    match v with
    | .str s =>
      if env.valid_cert s then .ok (none, { b with ca := some s })
      else .ok (some ("auth_ca is not a valid certificate"), b)
    | _ => .error .attributeError
  else .ok (none, b)

def config_keys_loop (env : ValEnv) :
    List (String × PyVal) → CertBundle → Except PyErr (Option String × CertBundle)
  | [], b => .ok (none, b)
  | (k, v) :: rest, b =>
    match check_config_key env k v b with
    | .error e => .error e
    | .ok (some m, b2) => .ok (some m, b2)
    | .ok (none, b2) => config_keys_loop env rest b2

/-- Filesystem mutations performed by the certificate and
protected-repo bookkeeping inside `validate_config`. -/
inductive ValEffect where
  | writeCertBundle (repo_id : String)
  | addProtectedRepo (rel repo_id : String)
  | deleteProtectedRepo (rel : String)
deriving DecidableEq

/-- Model of `process_repo_auth_certificate_bundle`: a non-empty
bundle is written and the repo added to the protected listing;
otherwise any stale protected-repo entry is deleted. -/
def process_repo_auth_certificate_bundle (repo_id rel : String)
    (b : CertBundle) : List ValEffect :=
  if b.nonempty then
    [.writeCertBundle repo_id, .addProtectedRepo rel repo_id]
  else [.deleteProtectedRepo rel]

/-- The override publish-directory check (lines 196 to 212) for one of
the two override keys. -/
def publishDirCheck (env : ValEnv) (cfg : PyConfig) (key : String) :
    Option String :=
  match cfg.get key with
  | none => none
  | some v =>
    if truthy v then
      if !(env.path_exists (valStr v)) || !(env.is_dir (valStr v)) then
        some (("Value for ") ++ key ++ (" is not an existing directory: ")
          ++ valStr v)
      else if !(env.can_read (valStr v)) || !(env.can_write (valStr v)) then
        some (("Unable to read and write to specified ") ++ key ++ (": ")
          ++ valStr v)
      else none
    else none

def conflictMsg (rel : String) (item : ConflictItem) : String :=
  ("Relative url ") ++ rel ++ (" conflicts with existing relative_url of ")
    ++ (match item.relative_url with
        | some u => u
        | none => item.repo_id)
    ++ (" from repo ") ++ item.repo_id

/-- Model of `validate_config` (lines 104 to 224): the required-keys
loop, the all-keys loop with certificate bundling, the certificate and
protected-repo bookkeeping (a filesystem mutation executed before the
publish-directory and conflict checks), the two override
publish-directory checks, and the conflict query. -/
def validate_config (env : ValEnv) (repo : Repo) (cfg : PyConfig) :
    Except PyErr ((Bool × Option String) × List ValEffect) :=
  match required_keys_loop cfg REQUIRED_CONFIG_KEYS with
  | some m => .ok ((false, some m), [])
  | none =>
    match config_keys_loop env cfg.entries { cert := none, ca := none } with
    | .error e => .error e
    | .ok (some m, _) => .ok ((false, some m), [])
    | .ok (none, bundle) =>
      let rel := stripLeadingSlash (valStr (get_repo_relative_path repo cfg))
      let effs := process_repo_auth_certificate_bundle repo.id rel bundle
      match publishDirCheck env cfg ("https_publish_dir") with
      | some m => .ok ((false, some m), effs)
      | none =>
        match publishDirCheck env cfg ("http_publish_dir") with
        | some m => .ok ((false, some m), effs)
        | none =>
          match env.conflicts rel repo.id with
          | [] => .ok ((true, none), effs)
          | item :: _ => .ok ((false, some (conflictMsg rel item)), effs)

/-- Teardown actions of `distributor_removed`. -/
inductive RemEff where
  | deleteCertBundle (repo_id : String)
  | deleteProtectedRepo (rel : String)
  | removePublishDir (root dir : String)
deriving DecidableEq

/-- Model of `distributor_removed` (lines 461 to 480): certificate and
protected-repo teardown keyed by the computed relative path, then
removal of both published directories when present. -/
def distributor_removed (repo : Repo) (cfg : PyConfig) (fs : Fs) :
    List RemEff :=
  let rel := stripLeadingSlash (valStr (get_repo_relative_path repo cfg))
  let https_root := get_https_publish_dir cfg
  let https_dir := rstripSlash (pathJoin https_root rel)
  let http_root := get_http_publish_dir cfg
  let http_dir := rstripSlash (pathJoin http_root rel)
  [RemEff.deleteCertBundle repo.id, RemEff.deleteProtectedRepo rel]
    ++ (if fs.pathExists https_dir then
          [RemEff.removePublishDir https_root https_dir] else [])
    ++ (if fs.pathExists http_dir then
          [RemEff.removePublishDir http_root http_dir] else [])

/-- A validator environment in which every external check passes. -/
def valEnvOk : ValEnv :=
  { valid_checksum := fun _ => true, valid_cert := fun _ => true,
    path_exists := fun _ => true, is_dir := fun _ => true,
    can_read := fun _ => true, can_write := fun _ => true,
    conflicts := fun _ _ => [] }

def repoC7 : Repo := { id := ("r7"), working_dir := ("/w7") }

/-- A configuration whose relative_url contains a disallowed dot after
an allowed first character. -/
def cfgC7bad : PyConfig :=
  { entries := [(("relative_url"), .str ("a..")), (("http"), .bool true),
    (("https"), .bool true)] }

/-- C7 counterexample: the claim says any relative_url containing a
character outside the allowed class anywhere is rejected.  The source
uses `re.match`, which anchors at the start of the string, so the
value with two dots after an allowed first character passes the check
and `validate_config` accepts the configuration. -/
theorem C7_counterexample :
    (allowedChar ('.') = false)
  ∧ ((("a..").data.contains ('.')) = true)
  ∧ (validate_config valEnvOk repoC7 cfgC7bad
      = .ok ((true, none), [ValEffect.deleteProtectedRepo ("a..")])) :=
  ⟨by decide, by decide, by decide⟩

/-- C7 (amended): `validate_config` rejects on the character check
exactly when the first character of `relative_url` lies outside the
allowed class (alphanumerics, slash, underscore, dash), because
`re.match` anchors at the start; in particular `../etc` is rejected
while a disallowed character after an allowed first one is not
detected.  The rejection carries the descriptive character message and
happens before any filesystem mutation. -/
theorem C7_theorem : ∀ (env : ValEnv) (repo : Repo) (cfg : PyConfig)
    (s : String) (c : Char),
    cfg.get ("relative_url") = some (.str s) →
    s.data.head? = some c →
    allowedChar c = false →
    validate_config env repo cfg = .ok ((false, some relUrlCharMsg), []) := by
  intro env repo cfg s c h1 hhead hc
  have h2 : re_match_nonallowed s = true := by
    cases hs : s.data with
    | nil => rw [hs] at hhead; simp at hhead
    | cons c0 rest =>
      rw [hs] at hhead
      have hcc : c0 = c := by
        simpa using hhead
      subst hcc
      simp [re_match_nonallowed, hs, hc]
  have hreq : required_keys_loop cfg REQUIRED_CONFIG_KEYS
      = some relUrlCharMsg := by
    simp [required_keys_loop, REQUIRED_CONFIG_KEYS, check_required_key, h1, h2]
  simp [validate_config, hreq]

def cfgDotDot : PyConfig :=
  { entries := [(("relative_url"), .str ("../etc")), (("http"), .bool true),
    (("https"), .bool true)] }

/-- C7 witness: the amended theorem applied to `../etc`, whose first
character is a disallowed dot. -/
theorem C7_witness :
    validate_config valEnvOk repoC7 cfgDotDot
      = .ok ((false, some relUrlCharMsg), []) :=
  C7_theorem valEnvOk repoC7 cfgDotDot ("../etc") ('.') (by decide)
    (by decide) (by decide)

def repoC8 : Repo := { id := ("r8"), working_dir := ("/w8") }

def cfgC8 : PyConfig :=
  { entries := [(("relative_url"), .str ("r8")), (("http"), .bool true),
    (("https"), .bool true), (("https_publish_dir"), .str ("/nope"))] }

/-- A validator environment in which no path exists. -/
def valEnvNoDir : ValEnv :=
  { valid_checksum := fun _ => true, valid_cert := fun _ => true,
    path_exists := fun _ => false, is_dir := fun _ => true,
    can_read := fun _ => true, can_write := fun _ => true,
    conflicts := fun _ _ => [] }

/-- C8 counterexample: a configuration rejected at the override
publish-directory check is rejected only after the certificate and
protected-repo bookkeeping has already run — here the stale
protected-repo entry deletion — so the rejection is not mutation
free. -/
theorem C8_counterexample :
    ((validate_config valEnvNoDir repoC8 cfgC8).map (fun r => (r.1.1, r.2))
      = .ok (false, [ValEffect.deleteProtectedRepo ("r8")]))
  ∧ ¬([ValEffect.deleteProtectedRepo ("r8")] = ([] : List ValEffect)) :=
  ⟨by decide, by decide⟩

/-- C8 (amended): rejections issued by the required-keys loop and by
the all-keys loop (missing keys, bad types, relative-url characters,
unknown keys, invalid certificates) are returned with no filesystem
mutation; and conversely, whenever `validate_config` returns with a
non-empty mutation trace, both loops had passed — so only the
publish-directory and conflict rejections occur after the
certificate and protected-repo bookkeeping has mutated state. -/
theorem C8_theorem : ∀ (env : ValEnv) (repo : Repo) (cfg : PyConfig),
    (∀ m, required_keys_loop cfg REQUIRED_CONFIG_KEYS = some m →
      validate_config env repo cfg = .ok ((false, some m), []))
  ∧ (∀ m b, required_keys_loop cfg REQUIRED_CONFIG_KEYS = none →
      config_keys_loop env cfg.entries { cert := none, ca := none }
        = .ok (some m, b) →
      validate_config env repo cfg = .ok ((false, some m), []))
  ∧ (∀ res effs, validate_config env repo cfg = .ok (res, effs) →
      ¬(effs = []) →
      required_keys_loop cfg REQUIRED_CONFIG_KEYS = none
      ∧ ∃ b, config_keys_loop env cfg.entries { cert := none, ca := none }
          = .ok (none, b)) := by
  intro env repo cfg
  refine ⟨?_, ?_, ?_⟩
  · intro m hm
    simp [validate_config, hm]
  · intro m b hreq hkeys
    simp [validate_config, hreq, hkeys]
  · intro res effs h hne
    unfold validate_config at h
    cases hreq : required_keys_loop cfg REQUIRED_CONFIG_KEYS with
    | some m =>
      rw [hreq] at h
      simp only [Except.ok.injEq, Prod.mk.injEq] at h
      exact absurd h.2.symm hne
    | none =>
      rw [hreq] at h
      cases hkeys : config_keys_loop env cfg.entries
          { cert := none, ca := none } with
      | error e => rw [hkeys] at h; simp at h
      | ok p =>
        rw [hkeys] at h
        match p with
        | (some m, b) =>
          simp only [Except.ok.injEq, Prod.mk.injEq] at h
          exact absurd h.2.symm hne
        | (none, b) =>
          exact ⟨rfl, ⟨b, rfl⟩⟩

def cfgMissing : PyConfig := { entries := [(("http"), .bool true)] }

/-- C8 witness: the amended theorem applied to a configuration missing
its required relative_url key; the rejection carries no mutation. -/
theorem C8_witness :
    validate_config valEnvOk repoC8 cfgMissing
      = .ok ((false, some (("Missing required configuration key: ")
          ++ ("relative_url"))), []) :=
  (C8_theorem valEnvOk repoC8 cfgMissing).1 _ (by decide)

def repoC10 : Repo := { id := ("r10"), working_dir := ("/w10") }

def cfgC10 : PyConfig :=
  { entries := [(("relative_url"), .str ("")), (("http"), .bool true),
    (("https"), .bool true)] }

/-- C10: an absent or empty relative_url makes
`get_repo_relative_path` fall back to the repository id (the empty
string is falsy); the empty string passes the required-key check (it
is present and a string) and the character check (the anchored match
needs at least one character); a full `validate_config` call over such
a configuration accepts it, using the repo id as the relative path of
the bookkeeping; and `distributor_removed` tears down under the repo
id as well. -/
theorem C10_theorem :
    (∀ (repo : Repo) (cfg : PyConfig),
      (cfg.get ("relative_url") = none →
        get_repo_relative_path repo cfg = .str repo.id)
      ∧ (cfg.get ("relative_url") = some (.str ("")) →
        get_repo_relative_path repo cfg = .str repo.id
        ∧ check_required_key cfg ("relative_url") = none))
  ∧ (validate_config valEnvOk repoC10 cfgC10
      = .ok ((true, none), [ValEffect.deleteProtectedRepo ("r10")]))
  ∧ (distributor_removed repoC10 cfgC10 { present := [], links := [] }
      = [RemEff.deleteCertBundle ("r10"),
         RemEff.deleteProtectedRepo ("r10")]) := by
  refine ⟨?_, by decide, by decide⟩
  intro repo cfg
  constructor
  · intro h
    simp [get_repo_relative_path, h]
  · intro h
    constructor
    · simp [get_repo_relative_path, h, truthy]
    · simp [check_required_key, h, re_match_nonallowed]

/-- C10 witness: the quantified part applied to the concrete empty
relative_url configuration. -/
theorem C10_witness :
    get_repo_relative_path repoC10 cfgC10 = .str (("r10"))
    ∧ check_required_key cfgC10 ("relative_url") = none :=
  (C10_theorem.1 repoC10 cfgC10).2 (by decide)

end YumDist
